import Mathlib

set_option maxRecDepth 4000

/-!
Shallow embedding of the email-classification backend (src/ai_client.py and
src/main.py) and proofs about the claims of its specification.

Python strings are embedded as Lean `String` (a list of code points), byte
sequences as `List (Fin 256)`.  External collaborators (the local
classification pipeline, the Gemini remote call, the chardet detector, the
wall clock, and the catch-all exception source in `analyze_and_respond`) are
modelled as explicit oracle parameters; a pure call of an oracle stands for
one invocation of the external service.
-/

/-- Bytes of an uploaded file: the elements of a Python `bytes` object. -/
abbrev Byte := Fin 256

/-- Python `len(s)` on a `str`: the number of code points. -/
def pyLen (s : String) : Nat := s.data.length

/-- Python `s[:n]` on a `str`: the first `n` code points. -/
def pyTake (s : String) (n : Nat) : String := ⟨s.data.take n⟩

/-- Python `s.lower()` (ASCII case mapping; the labels compared in the source
are ASCII so the restriction is immaterial). -/
def pyLower (s : String) : String := ⟨s.data.map Char.toLower⟩

/-- Python `s.strip()`: drop leading and trailing whitespace. -/
def pyStrip (s : String) : String :=
  ⟨((s.data.dropWhile Char.isWhitespace).reverse.dropWhile Char.isWhitespace).reverse⟩

/-- Python truthiness of an optional string field: `None` and `""` are falsy. -/
def optTruthy : Option String → Bool
  | none => false
  | some s => !s.data.isEmpty

/-! ### Encoding resolution (src/main.py lines 64-92) -/

/-- True for UTF-8 continuation bytes `0x80..0xBF`. -/
def contByte (b : Byte) : Bool := decide (0x80 ≤ b.val ∧ b.val < 0xC0)

/-- Allowed first continuation byte after a three-byte lead (strict UTF-8:
lead `0xE0` needs `0xA0..0xBF`, lead `0xED` needs `0x80..0x9F` to exclude
surrogates, other leads need `0x80..0xBF`). -/
def cont1Ok3 (b b1 : Byte) : Bool :=
  if b.val = 0xE0 then decide (0xA0 ≤ b1.val ∧ b1.val < 0xC0)
  else if b.val = 0xED then decide (0x80 ≤ b1.val ∧ b1.val < 0xA0)
  else contByte b1

/-- Allowed first continuation byte after a four-byte lead (strict UTF-8:
lead `0xF0` needs `0x90..0xBF`, lead `0xF4` needs `0x80..0x8F` to stay below
`U+110000`, other leads need `0x80..0xBF`). -/
def cont1Ok4 (b b1 : Byte) : Bool :=
  if b.val = 0xF0 then decide (0x90 ≤ b1.val ∧ b1.val < 0xC0)
  else if b.val = 0xF4 then decide (0x80 ≤ b1.val ∧ b1.val < 0x90)
  else contByte b1

/-- Strict UTF-8 decoding of a byte list, as Python `bytes.decode("utf-8")`:
rejects lone continuation bytes, overlong forms, surrogates and code points
above `U+10FFFF`; `none` models a raised `UnicodeDecodeError`. -/
def utf8Decode : List Byte → Option (List Char)
  | [] => some []
  | b :: rest =>
    if b.val < 0x80 then
      (utf8Decode rest).map (fun cs => Char.ofNat b.val :: cs)
    else if b.val < 0xC2 then none
    else if b.val < 0xE0 then
      match rest with
      | [] => none
      | b1 :: rest1 =>
        if contByte b1 then
          (utf8Decode rest1).map
            (fun cs => Char.ofNat ((b.val - 0xC0) * 0x40 + (b1.val - 0x80)) :: cs)
        else none
    else if b.val < 0xF0 then
      match rest with
      | b1 :: b2 :: rest2 =>
        if cont1Ok3 b b1 && contByte b2 then
          (utf8Decode rest2).map
            (fun cs =>
              Char.ofNat ((b.val - 0xE0) * 0x1000 + (b1.val - 0x80) * 0x40 +
                (b2.val - 0x80)) :: cs)
        else none
      | _ => none
    else if b.val < 0xF5 then
      match rest with
      | b1 :: b2 :: b3 :: rest3 =>
        if cont1Ok4 b b1 && contByte b2 && contByte b3 then
          (utf8Decode rest3).map
            (fun cs =>
              Char.ofNat ((b.val - 0xF0) * 0x40000 + (b1.val - 0x80) * 0x1000 +
                (b2.val - 0x80) * 0x40 + (b3.val - 0x80)) :: cs)
        else none
      | _ => none
    else none

/-- Python `bytes.decode("utf-8")` returning a string. -/
def decodeUtf8 (content : List Byte) : Option String :=
  (utf8Decode content).map (fun cs => (⟨cs⟩ : String))

/-- Python `bytes.decode("utf-8-sig")`: strip a leading byte-order mark
`EF BB BF` when present, then decode as strict UTF-8. -/
def decodeUtf8Sig (content : List Byte) : Option String :=
  match content with
  | a :: b :: c :: rest =>
    if a.val = 0xEF ∧ b.val = 0xBB ∧ c.val = 0xBF then decodeUtf8 rest
    else decodeUtf8 (a :: b :: c :: rest)
  | l => decodeUtf8 l

/-- Single-byte charmap decoding: each byte is looked up in a table; a byte
with no table entry raises (models Python codecs such as cp1252). -/
def charmapDecode (table : Byte → Option Char) : List Byte → Option (List Char)
  | [] => some []
  | b :: rest =>
    match table b, charmapDecode table rest with
    | some c, some cs => some (c :: cs)
    | _, _ => none

/-- Table of the latin-1 codec: every byte maps to the code point of the same
value, so the table is total. -/
def latin1Table (b : Byte) : Option Char := some (Char.ofNat b.val)

/-- Table entries of cp1252 for the range `0x80..0x9F`; the five bytes
`0x81, 0x8D, 0x8F, 0x90, 0x9D` are undefined in cp1252 and raise. -/
def cp1252Hi (n : Nat) : Option Nat :=
  if n = 0x80 then some 0x20AC
  else if n = 0x82 then some 0x201A
  else if n = 0x83 then some 0x0192
  else if n = 0x84 then some 0x201E
  else if n = 0x85 then some 0x2026
  else if n = 0x86 then some 0x2020
  else if n = 0x87 then some 0x2021
  else if n = 0x88 then some 0x02C6
  else if n = 0x89 then some 0x2030
  else if n = 0x8A then some 0x0160
  else if n = 0x8B then some 0x2039
  else if n = 0x8C then some 0x0152
  else if n = 0x8E then some 0x017D
  else if n = 0x91 then some 0x2018
  else if n = 0x92 then some 0x2019
  else if n = 0x93 then some 0x201C
  else if n = 0x94 then some 0x201D
  else if n = 0x95 then some 0x2022
  else if n = 0x96 then some 0x2013
  else if n = 0x97 then some 0x2014
  else if n = 0x98 then some 0x02DC
  else if n = 0x99 then some 0x2122
  else if n = 0x9A then some 0x0161
  else if n = 0x9B then some 0x203A
  else if n = 0x9C then some 0x0153
  else if n = 0x9E then some 0x017E
  else if n = 0x9F then some 0x0178
  else none

/-- Table of the cp1252 codec. -/
def cp1252Table (b : Byte) : Option Char :=
  if b.val < 0x80 ∨ 0xA0 ≤ b.val then some (Char.ofNat b.val)
  else (cp1252Hi b.val).map Char.ofNat

/-- Python `bytes.decode("latin-1")`. -/
def decodeLatin1 (content : List Byte) : Option String :=
  (charmapDecode latin1Table content).map (fun cs => (⟨cs⟩ : String))

/-- Python `bytes.decode("cp1252")`. -/
def decodeCp1252 (content : List Byte) : Option String :=
  (charmapDecode cp1252Table content).map (fun cs => (⟨cs⟩ : String))

/-- Python `bytes.decode("iso-8859-1")`: the same codec as latin-1. -/
def decodeIso88591 (content : List Byte) : Option String :=
  (charmapDecode latin1Table content).map (fun cs => (⟨cs⟩ : String))

/-- UTF-8 decoding with replacement of invalid input, as Python
`bytes.decode("utf-8", errors="replace")`: each maximal subpart of an
ill-formed sequence is replaced by one `U+FFFD`. -/
def utf8ReplaceChars : List Byte → List Char
  | [] => []
  | b :: rest =>
    if b.val < 0x80 then Char.ofNat b.val :: utf8ReplaceChars rest
    else if b.val < 0xC2 then Char.ofNat 0xFFFD :: utf8ReplaceChars rest
    else if b.val < 0xE0 then
      match rest with
      | [] => [Char.ofNat 0xFFFD]
      | b1 :: rest1 =>
        if contByte b1 then
          Char.ofNat ((b.val - 0xC0) * 0x40 + (b1.val - 0x80)) ::
            utf8ReplaceChars rest1
        else Char.ofNat 0xFFFD :: utf8ReplaceChars (b1 :: rest1)
    else if b.val < 0xF0 then
      match rest with
      | [] => [Char.ofNat 0xFFFD]
      | b1 :: rest1 =>
        if cont1Ok3 b b1 then
          match rest1 with
          | [] => [Char.ofNat 0xFFFD]
          | b2 :: rest2 =>
            if contByte b2 then
              Char.ofNat ((b.val - 0xE0) * 0x1000 + (b1.val - 0x80) * 0x40 +
                (b2.val - 0x80)) :: utf8ReplaceChars rest2
            else Char.ofNat 0xFFFD :: utf8ReplaceChars (b2 :: rest2)
        else Char.ofNat 0xFFFD :: utf8ReplaceChars (b1 :: rest1)
    else if b.val < 0xF5 then
      match rest with
      | [] => [Char.ofNat 0xFFFD]
      | b1 :: rest1 =>
        if cont1Ok4 b b1 then
          match rest1 with
          | [] => [Char.ofNat 0xFFFD]
          | b2 :: rest2 =>
            if contByte b2 then
              match rest2 with
              | [] => [Char.ofNat 0xFFFD]
              | b3 :: rest3 =>
                if contByte b3 then
                  Char.ofNat ((b.val - 0xF0) * 0x40000 + (b1.val - 0x80) * 0x1000 +
                    (b2.val - 0x80) * 0x40 + (b3.val - 0x80)) ::
                    utf8ReplaceChars rest3
                else Char.ofNat 0xFFFD :: utf8ReplaceChars (b3 :: rest3)
            else Char.ofNat 0xFFFD :: utf8ReplaceChars (b2 :: rest2)
        else Char.ofNat 0xFFFD :: utf8ReplaceChars (b1 :: rest1)
    else Char.ofNat 0xFFFD :: utf8ReplaceChars rest

/-- Python `content.decode("utf-8", errors="replace")`: total. -/
def utf8ReplaceDecode (content : List Byte) : String := ⟨utf8ReplaceChars content⟩

/-- Terminal fallback step of src/main.py lines 87-92: the replace decode
wrapped in try/except.  The decode itself is total, so the attempt always
yields `some`; the `Option` records the try/except structure of the source. -/
def utf8ReplaceDecodeTry (content : List Byte) : Option String :=
  some (utf8ReplaceDecode content)

/-- Caught outcomes of the chardet step (src/main.py lines 68-74): `detect =
none` models `chardet` being unavailable (`ImportError`); otherwise the
supplied function stands for decoding with the detected encoding (with the
`or "utf-8"` default applied), `none` modelling a `UnicodeDecodeError`.
Both of those exceptions are caught at line 74 and fall through to the
fallback list.  This collapsed form covers only the caught exceptions; the
step's third, uncaught outcome — a `LookupError` from a detected codec name
the platform lacks — is modelled in full by `ChardetOutcome` and
`resolveEncodingFull` below. -/
def chardetAttempt (detect : Option (List Byte → Option String))
    (content : List Byte) : Option String :=
  match detect with
  | none => none
  | some d => d content

/-- Ordered fallback decoders of src/main.py line 78:
`["utf-8", "utf-8-sig", "latin-1", "cp1252", "iso-8859-1"]`. -/
def fallbackDecoders : List (List Byte → Option String) :=
  [decodeUtf8, decodeUtf8Sig, decodeLatin1, decodeCp1252, decodeIso88591]

/-- The for-loop of src/main.py lines 78-84: first decoder that succeeds
wins; `none` when every decoder raises. -/
def firstSuccess (decs : List (List Byte → Option String)) (content : List Byte) :
    Option String :=
  match decs with
  | [] => none
  | d :: ds =>
    match d content with
    | some s => some s
    | none => firstSuccess ds content

/-- Encoding resolution for an uploaded file, src/main.py lines 64-92:
chardet first, then the fixed encoding list, then the replace decode; the
error value is the 400 response raised when even the terminal step fails. -/
def resolveEncoding (detect : Option (List Byte → Option String))
    (content : List Byte) : Except (Nat × String) String :=
  match chardetAttempt detect content with
  | some s => Except.ok s
  | none =>
    match firstSuccess fallbackDecoders content with
    | some s => Except.ok s
    | none =>
      match utf8ReplaceDecodeTry content with
      | some s => Except.ok s
      | none => Except.error (400, "Não foi possível decodificar o arquivo")

/-- Modelled from claim C9: the resolver with the branches claimed
unreachable (cp1252, iso-8859-1, the replace decode and the 400 error)
removed, for comparison with `resolveEncoding`. -/
def resolveEncodingPruned (detect : Option (List Byte → Option String))
    (content : List Byte) : Except (Nat × String) String :=
  match chardetAttempt detect content with
  | some s => Except.ok s
  | none =>
    Except.ok
      ((firstSuccess [decodeUtf8, decodeUtf8Sig, decodeLatin1] content).getD (""))

/-- Outcome of one run of the chardet try block of src/main.py lines 68-73
(`detected = chardet.detect(content)`, `encoding = detected["encoding"] or
"utf-8"`, `email_text = content.decode(encoding)`), modelled in full:
`importError` — the `import chardet` raised (caught at line 74);
`decoded s` — decoding with the detected or defaulted encoding succeeded;
`unicodeDecodeError` — that decode raised `UnicodeDecodeError` (caught at
line 74); `lookupError enc` — that decode raised `LookupError` because the
platform has no codec named `enc`.  chardet can report such names (for
example EUC-TW, or Johab with chardet 5), and `LookupError` is not in the
except tuple of line 74, so this last outcome escapes the block. -/
inductive ChardetOutcome where
  | importError : ChardetOutcome
  | decoded (s : String) : ChardetOutcome
  | unicodeDecodeError : ChardetOutcome
  | lookupError (enc : String) : ChardetOutcome

/-- Result of the file-decoding block of src/main.py lines 64-92 under the
full chardet model: a decoded string, the HTTP 400 raised at line 92, or a
`LookupError` that the except clause of line 74 does not catch and that
propagates uncaught out of the handler. -/
inductive ResolveOutcome where
  | ok (s : String) : ResolveOutcome
  | httpError (status : Nat) (detail : String) : ResolveOutcome
  | uncaughtLookupError (enc : String) : ResolveOutcome

/-- Encoding resolution with the chardet step modelled in full (src/main.py
lines 64-92): a successful detect-and-decode wins; `ImportError` and
`UnicodeDecodeError` are caught and fall through to the fixed encoding list
and the terminal replace decode; a `LookupError` from a detected codec name
the platform lacks is not caught and leaves the block as an uncaught
exception. -/
def resolveEncodingFull (chard : List Byte → ChardetOutcome)
    (content : List Byte) : ResolveOutcome :=
  match chard content with
  | ChardetOutcome.decoded s => ResolveOutcome.ok s
  | ChardetOutcome.lookupError enc => ResolveOutcome.uncaughtLookupError enc
  | ChardetOutcome.importError | ChardetOutcome.unicodeDecodeError =>
    match firstSuccess fallbackDecoders content with
    | some s => ResolveOutcome.ok s
    | none =>
      match utf8ReplaceDecodeTry content with
      | some s => ResolveOutcome.ok s
      | none =>
        ResolveOutcome.httpError 400 ("Não foi possível decodificar o arquivo")

/-! ### Classification (src/ai_client.py lines 62-114) -/

/-- Outcome of one invocation of `generate_content` (src/ai_client.py lines
62-78), which runs the local classification pipeline and unwraps its first
element: `fail` models the pipeline raising (caught there, returning `None`);
`entry label score` models a returned dict, with `none` components standing
for keys missing under `result.get`; `nonDict` models a non-dict return value
(such as an empty list), whose `.get` attribute access raises and is caught
by the handler of `classify_productivity`. -/
inductive PipeResult where
  | fail : PipeResult
  | nonDict : PipeResult
  | entry (label : Option String) (score : Option ℚ) : PipeResult

/-- Truncation of src/ai_client.py lines 83-85: `text[:512]` when
`len(text) > 512`. -/
def pyTrunc512 (text : String) : String :=
  if pyLen text > 512 then pyTake text 512 else text

/-- Label decision of src/ai_client.py lines 92-110 applied to the pipeline
result: `None` yields the string `"Erro ao classificar"`; a dict is mapped
through `label.lower()` with the `score > 0.5` fallback; a non-dict raises
and the handler of lines 112-114 returns `"Improdutivo"`. -/
def classifyResultLogic : PipeResult → String
  | PipeResult.fail => "Erro ao classificar"
  | PipeResult.nonDict => "Improdutivo"
  | PipeResult.entry label score =>
    if pyLower (label.getD ("")) = "produtivo" then "Produtivo"
    else if pyLower (label.getD ("")) = "improdutivo" then "Improdutivo"
    else if (score.getD 0 : ℚ) > (0.5 : ℚ) then "Produtivo" else "Improdutivo"

/-- Embeds `AIClient.classify_productivity` (src/ai_client.py lines 80-114);
`gen` is the oracle for this call's `generate_content` invocation. -/
def classify_productivity (gen : String → PipeResult) (text : String) : String :=
  classifyResultLogic (gen (pyTrunc512 text))

/-- Modelled from the spec's words in §4.2 (claim C7): map the label string
case-insensitively to the two labels, and when it is neither, threshold the
confidence score at 0.5 (strictly greater means Productive). -/
def specLabelToResult (label : String) (score : ℚ) : String :=
  if pyLower label = "produtivo" then "Produtivo"
  else if pyLower label = "improdutivo" then "Improdutivo"
  else if score > (0.5 : ℚ) then "Produtivo" else "Improdutivo"

/-! ### Response generation (src/ai_client.py lines 116-211) -/

/-- Outcome of one invocation of `self.gemini_model.generate_content`
(src/ai_client.py line 202): `raises err` models a raised exception with
message `err`; `empty` models a falsy response or falsy `response.text`;
`reply s` models a response whose `text` attribute is the truthy string
`s`. -/
inductive RemoteOutcome where
  | raises (err : String) : RemoteOutcome
  | empty : RemoteOutcome
  | reply (s : String) : RemoteOutcome

/-- System instruction of src/ai_client.py lines 170-172 (productive case). -/
def prodInstr : String :=
  "Você é um assistente profissional especializado em comunicação empresarial. \n                Gere uma resposta adequada, profissional e construtiva para mensagens de trabalho produtivas.\n                Mantenha um tom cordial, objetivo e focado em resultados."

/-- System instruction of src/ai_client.py lines 174-175 (other case). -/
def otherInstr : String :=
  "Você é um assistente profissional. \n                Gere uma resposta educada e diplomática, tentando redirecionar a conversa para tópicos mais produtivos quando apropriado."

/-- Condition `classification and classification.lower() == "produtivo"` of
src/ai_client.py line 169. -/
def isProdCls : Option String → Bool
  | none => false
  | some s => pyLower s == "produtivo"

/-- Prompt construction of src/ai_client.py lines 168-199. -/
def buildGeminiPrompt (text : String) (context : Option String)
    (classification : Option String) : String :=
  let sysInstr := if isProdCls classification then prodInstr else otherInstr
  let p1 := [sysInstr, "\nMensagem recebida: \"" ++ text ++ "\""]
  let p2 :=
    if optTruthy context then p1 ++ ["\nContexto adicional: " ++ context.getD ("")]
    else p1
  let p3 :=
    if optTruthy classification then
      p2 ++ ["\nClassificação da mensagem: " ++ classification.getD ("")]
    else p2
  let p4 := p3 ++
    ["\nInstruções:", "- Gere uma resposta profissional e adequada",
     "- Mantenha um tom cordial e respeitoso", "- Seja conciso mas completo",
     "- Se necessário, sugira próximos passos ou ações",
     "- Responda em português brasileiro", "\nResposta sugerida:"]
  String.intercalate ("\n") p4

/-- Embeds `AIClient._generate_gemini_response` (src/ai_client.py lines
165-211); `remote` is the oracle for the Gemini call.  On a raised exception
the function returns the error formatted into the reply string (lines
209-211); on a falsy response it returns the fallback sentence (line 207). -/
def generate_gemini_response (remote : String → RemoteOutcome) (text : String)
    (context : Option String) (classification : Option String) : String :=
  match remote (buildGeminiPrompt text context classification) with
  | RemoteOutcome.raises err => "Erro ao gerar resposta: " ++ err
  | RemoteOutcome.empty => "Não foi possível gerar uma resposta adequada."
  | RemoteOutcome.reply s => pyStrip s

/-- Dict returned by `AIClient.generate_response` (keys `success`, `message`,
`response`, `classification`). -/
structure GenResult where
  success : Bool
  message : String
  response : Option String
  classification : Option String
deriving DecidableEq, Repr

/-- Embeds `AIClient.generate_response` (src/ai_client.py lines 116-163).
`geminiAvailable` is `self.gemini_model is not None`; `gen` is the oracle of
the `generate_content` invocation made by the inner `classify_productivity`
call.  Every callee catches its own exceptions, so the catch-all of lines
156-163 has no reachable trigger and the function is total. -/
def generate_response (geminiAvailable : Bool) (gen : String → PipeResult)
    (remote : String → RemoteOutcome) (text : String) (context : Option String)
    (force_response : Bool) : GenResult :=
  if geminiAvailable = false then
    ⟨false,
      "Geração de resposta não disponível. Verifique a configuração do Gemini.",
      none, none⟩
  else
    if force_response = false ∧
        pyLower (classify_productivity gen text) = "improdutivo" then
      ⟨true, "Mensagem classificada como improdutiva. Nenhuma resposta sugerida.",
        none, some (classify_productivity gen text)⟩
    else
      ⟨true, "Resposta gerada com sucesso",
        some (generate_gemini_response remote text context
          (some (classify_productivity gen text))),
        some (classify_productivity gen text)⟩

/-- Exception-handler result of `AIClient.generate_response` lines 156-163
(unreachable: every callee catches its own exceptions); kept for
completeness of the embedding. -/
def generate_responseErr (e : String) : GenResult :=
  ⟨false, "Erro ao gerar resposta: " ++ e, none, none⟩

/-! ### Top-level analysis (src/ai_client.py lines 213-252) -/

/-- Dict under the `classification` key of `analyze_and_respond`. -/
structure ClsDict where
  label : String
  is_productive : Bool
deriving DecidableEq, Repr

/-- Dict returned by `AIClient.analyze_and_respond`. -/
structure AnalysisResult where
  text : String
  classification : ClsDict
  response : GenResult
  timestamp : String
deriving DecidableEq, Repr

/-- Embeds `AIClient.analyze_and_respond` (src/ai_client.py lines 213-252).
The body calls `classify_productivity` directly and again indirectly through
`generate_response`, so two pipeline-invocation oracles `gen1` and `gen2` are
threaded (in call order).  `exc` models the catch-all of lines 237-252: `some
e` stands for an exception with message `e` raised inside the try block,
`none` for a normal run.  `now` is the wall-clock oracle read by
`_get_timestamp`. -/
def analyze_and_respond (geminiAvailable : Bool) (gen1 gen2 : String → PipeResult)
    (remote : String → RemoteOutcome) (exc : Option String) (now : String)
    (text : String) (context : Option String) : AnalysisResult :=
  match exc with
  | some e =>
    ⟨text, ⟨"Erro", false⟩,
      ⟨false, "Erro na análise: " ++ e, none, none⟩, now⟩
  | none =>
    ⟨text,
      ⟨classify_productivity gen1 text,
        pyLower (classify_productivity gen1 text) == "produtivo"⟩,
      generate_response geminiAvailable gen2 remote text context false, now⟩

/-! ### Request handler (src/main.py lines 42-125) -/

/-- Form fields of a request to `/api/process_email/`: `email_text` and
`context` are optional strings, `email_file` an optional uploaded byte
sequence. -/
structure EmailRequest where
  email_text : Option String
  email_file : Option (List Byte)
  context : Option String

/-- The `classification` object of the handler's JSON body. -/
structure OutClassification where
  category : String
  is_productive : Bool
deriving DecidableEq, Repr

/-- The `response` object of the handler's JSON body; `generated` is mapped
from the `success` key of the inner dict (src/main.py line 116). -/
structure OutResponse where
  generated : Bool
  message : String
  text : Option String
deriving DecidableEq, Repr

/-- JSON body returned by the handler on success (src/main.py lines 108-121). -/
structure OutBody where
  success : Bool
  text : String
  classification : OutClassification
  response : OutResponse
  timestamp : String
deriving DecidableEq, Repr

/-- Process-wide state and oracles of the service: AI-client initialization
outcome, Gemini availability, the two per-request pipeline invocations, the
remote Gemini call, the chardet step, the exception oracle of
`analyze_and_respond`, and the two wall-clock reads. -/
structure AppState where
  aiAvailable : Bool
  geminiAvailable : Bool
  gen1 : String → PipeResult
  gen2 : String → PipeResult
  remote : String → RemoteOutcome
  detect : Option (List Byte → Option String)
  exc : Option String
  nowClient : String
  nowHandler : String

/-- Embeds the `process_email` endpoint (src/main.py lines 42-125): 503 when
the AI client failed to initialize; file decoding via `resolveEncoding` when
the text field is falsy and a file is present; 400 when the text field is
falsy and no file is present; otherwise classification and response
generation through `analyze_and_respond`, shaped into the JSON body.  The
error value carries the HTTP status and detail. -/
def process_email (st : AppState) (req : EmailRequest) :
    Except (Nat × String) OutBody :=
  if st.aiAvailable = false then
    Except.error (503, "AI Client não inicializado")
  else
    let resolved : Except (Nat × String) String :=
      if optTruthy req.email_text = false ∧ req.email_file.isSome then
        resolveEncoding st.detect (req.email_file.getD [])
      else if optTruthy req.email_text = false then
        Except.error (400, "Nenhum texto ou arquivo fornecido")
      else Except.ok (req.email_text.getD (""))
    match resolved with
    | Except.error e => Except.error e
    | Except.ok email_text =>
      let result := analyze_and_respond st.geminiAvailable st.gen1 st.gen2
        st.remote st.exc st.nowClient email_text req.context
      Except.ok
        ⟨true, email_text,
          ⟨result.classification.label, result.classification.is_productive⟩,
          ⟨result.response.success, result.response.message,
            result.response.response⟩,
          st.nowHandler⟩

/-! ### Concrete oracles used by witnesses and counterexamples -/

/-- Pipeline oracle whose invocation always returns the label dict
`improdutivo` (score key absent). -/
def genImprod : String → PipeResult :=
  fun _ => PipeResult.entry (some ("improdutivo")) none

/-- Pipeline oracle whose invocation always returns the label dict
`produtivo` (score key absent). -/
def genProd : String → PipeResult :=
  fun _ => PipeResult.entry (some ("produtivo")) none

/-- Pipeline oracle whose invocation always raises (caught in
`generate_content`, which then returns `None`). -/
def genFail : String → PipeResult := fun _ => PipeResult.fail

/-- Remote oracle whose call returns a falsy response. -/
def remoteEmpty : String → RemoteOutcome := fun _ => RemoteOutcome.empty

/-- Remote oracle whose call raises with message `boom`. -/
def remoteRaise : String → RemoteOutcome :=
  fun _ => RemoteOutcome.raises ("boom")

/-! ### Helper lemmas -/

theorem charmapDecode_latin1 (l : List Byte) :
    charmapDecode latin1Table l = some (l.map (fun b => Char.ofNat b.val)) := by
  induction l with
  | nil => rfl
  | cons b t ih => simp [charmapDecode, latin1Table, ih]

theorem decodeLatin1_eq (content : List Byte) :
    decodeLatin1 content =
      some ((⟨content.map (fun b => Char.ofNat b.val)⟩ : String)) := by
  simp [decodeLatin1, charmapDecode_latin1 content]

theorem firstSuccess_fallback_eq (content : List Byte) :
    firstSuccess fallbackDecoders content =
      firstSuccess [decodeUtf8, decodeUtf8Sig, decodeLatin1] content := by
  simp only [fallbackDecoders, firstSuccess]
  cases decodeUtf8 content with
  | some s => rfl
  | none =>
    cases decodeUtf8Sig content with
    | some s => rfl
    | none => rw [decodeLatin1_eq content]

theorem firstSuccess_three_isSome (content : List Byte) :
    (firstSuccess [decodeUtf8, decodeUtf8Sig, decodeLatin1] content).isSome = true := by
  simp only [firstSuccess]
  cases decodeUtf8 content with
  | some s => rfl
  | none =>
    cases decodeUtf8Sig content with
    | some s => rfl
    | none => rw [decodeLatin1_eq content]; rfl

theorem resolveEncoding_eq_pruned (detect : Option (List Byte → Option String))
    (content : List Byte) :
    resolveEncoding detect content = resolveEncodingPruned detect content := by
  unfold resolveEncoding resolveEncodingPruned
  cases chardetAttempt detect content with
  | some s => rfl
  | none =>
    rw [firstSuccess_fallback_eq content]
    have h := firstSuccess_three_isSome content
    cases hf : firstSuccess [decodeUtf8, decodeUtf8Sig, decodeLatin1] content with
    | some s => simp [hf]
    | none => rw [hf] at h; simp at h

theorem pyTrunc512_eq_take_min (text : String) :
    pyTrunc512 text = pyTake text (min (pyLen text) 512) := by
  unfold pyTrunc512 pyTake pyLen
  split_ifs with h
  · have hm : min text.data.length 512 = 512 := min_eq_right (le_of_lt h)
    rw [hm]
  · have h2 : text.data.length ≤ 512 := Nat.le_of_not_lt h
    have hm : min text.data.length 512 = text.data.length := min_eq_left h2
    rw [hm, List.take_length]

theorem generate_response_classification (gA : Bool) (gen : String → PipeResult)
    (remote : String → RemoteOutcome) (text : String) (ctx : Option String)
    (force : Bool) :
    (generate_response gA gen remote text ctx force).classification = none ∨
      (generate_response gA gen remote text ctx force).classification =
        some (classify_productivity gen text) := by
  unfold generate_response
  split_ifs with h1 h2
  · exact Or.inl rfl
  · exact Or.inr rfl
  · exact Or.inr rfl

/-! ### Claims -/

/-- Claim C1, counterexample: when the classification pipeline raises,
`generate_content` returns `None` and `classify_productivity` returns the
third string `"Erro ao classificar"`, so the classifier does not return one
of exactly the two labels on every input. -/
theorem C1_counterexample :
    ¬(classify_productivity genFail ("x") = "Produtivo" ∨
      classify_productivity genFail ("x") = "Improdutivo") := by
  decide

/-- Claim C1 (amended): for every input text, `classify_productivity`
returns one of exactly three strings — `"Produtivo"`, `"Improdutivo"`, or
`"Erro ao classificar"`; a pipeline invocation that raises yields the third
string, while other internal failures degrade to `"Improdutivo"`. -/
theorem C1_amended (gen : String → PipeResult) (text : String) :
    classify_productivity gen text = "Produtivo" ∨
      classify_productivity gen text = "Improdutivo" ∨
      classify_productivity gen text = "Erro ao classificar" := by
  unfold classify_productivity
  cases gen (pyTrunc512 text) with
  | fail => exact Or.inr (Or.inr rfl)
  | nonDict => exact Or.inr (Or.inl rfl)
  | entry label score =>
    simp only [classifyResultLogic]
    split_ifs <;> simp

/-- Claim C2, counterexample: for a request whose text is classified
Improdutivo with `force` unset, the handler's `generated` flag (mapped from
the `success` key) is `true`, not `false`, while the reply text is null. -/
theorem C2_counterexample :
    (process_email
        ⟨true, true, genImprod, genImprod, remoteEmpty, none, none, ("t1"), ("t2")⟩
        ⟨some ("oi"), none, none⟩).toOption.map
        (fun b => (b.response.generated, b.response.text, b.response.message)) =
      some (true, (none : Option String),
        ("Mensagem classificada como improdutiva. Nenhuma resposta sugerida.")) := by
  rfl

/-- Claim C2 (amended): for every text and context, when the classification
computed inside `generate_response` is Improdutivo and `force` is false, the
generator returns `success = true` (which the handler reports as
`generated = true`), no reply text, and the explanatory message. -/
theorem C2_amended (gen : String → PipeResult) (remote : String → RemoteOutcome)
    (text : String) (ctx : Option String)
    (h : pyLower (classify_productivity gen text) = "improdutivo") :
    generate_response true gen remote text ctx false =
      ⟨true, "Mensagem classificada como improdutiva. Nenhuma resposta sugerida.",
        none, some (classify_productivity gen text)⟩ := by
  simp [generate_response, h]

/-- Claim C2 witness: the amended statement evaluated on a concrete
Improdutivo classification. -/
theorem C2_witness :
    generate_response true genImprod remoteEmpty ("oi") none false =
      ⟨true, "Mensagem classificada como improdutiva. Nenhuma resposta sugerida.",
        none, some ("Improdutivo")⟩ := by
  have h := C2_amended genImprod remoteEmpty ("oi") none (by rfl)
  exact h

/-- Claim C3, counterexample: when the remote generative call raises, the
generator does not return `generated = false` with the error in `message`;
it returns `success = true`, the fixed success message, and the error text
as the suggested reply. -/
theorem C3_counterexample :
    generate_response true genProd remoteRaise ("y") none false =
      ⟨true, "Resposta gerada com sucesso",
        some ("Erro ao gerar resposta: boom"), some ("Produtivo")⟩ := by
  rfl

/-- Claim C3 (amended): the generator never raises past the component
boundary, but on a remote-call failure `_generate_gemini_response` returns
the string `"Erro ao gerar resposta: <error>"` as the reply text, and
`generate_response` (when generation is attempted) reports `success = true`
with the message `"Resposta gerada com sucesso"` and that error string as
the suggested reply — the error is surfaced in the reply text, not in
`message`. -/
theorem C3_amended (gen : String → PipeResult) (remote : String → RemoteOutcome)
    (text : String) (ctx : Option String) (e : String)
    (h : ∀ p, remote p = RemoteOutcome.raises e) :
    generate_gemini_response remote text ctx
        (some (classify_productivity gen text)) = "Erro ao gerar resposta: " ++ e ∧
      generate_response true gen remote text ctx true =
        ⟨true, "Resposta gerada com sucesso",
          some ("Erro ao gerar resposta: " ++ e),
          some (classify_productivity gen text)⟩ := by
  have hg : generate_gemini_response remote text ctx
      (some (classify_productivity gen text)) = "Erro ao gerar resposta: " ++ e := by
    unfold generate_gemini_response
    rw [h]
  refine ⟨hg, ?_⟩
  simp [generate_response, hg]

/-- Claim C3 witness: the amended statement evaluated on a concrete raising
remote call. -/
theorem C3_witness :
    generate_response true genProd remoteRaise ("x") none true =
      ⟨true, "Resposta gerada com sucesso",
        some ("Erro ao gerar resposta: boom"), some ("Produtivo")⟩ := by
  have h := C3_amended genProd remoteRaise ("x") none ("boom") (fun p => rfl)
  exact h.2

/-- Claim C4, counterexample: when chardet reports a codec name the platform
lacks (such as EUC-TW), `content.decode` raises `LookupError`, which the
except clause of src/main.py line 74 does not catch — the resolution block
does not return a string; the exception propagates uncaught. -/
theorem C4_counterexample :
    ¬∃ s, resolveEncodingFull (fun _ => ChardetOutcome.lookupError ("EUC-TW")) [] =
      ResolveOutcome.ok s := by
  rintro ⟨s, h⟩
  cases h

/-- Claim C4 (amended): for every byte sequence, provided the chardet step
does not raise a `LookupError` (chardet absent, or decoding with the
detected encoding either succeeds or raises `UnicodeDecodeError`), the
encoding-resolution block terminates and returns a string — caught failures
fall through to the fixed encoding list and the terminal replace-decode
attempt always succeeds.  A `LookupError` from a detected codec name the
platform has no codec for escapes the block uncaught. -/
theorem C4_amended (chard : List Byte → ChardetOutcome) (content : List Byte)
    (h : ∀ enc, chard content ≠ ChardetOutcome.lookupError enc) :
    (∃ s, resolveEncodingFull chard content = ResolveOutcome.ok s) ∧
      utf8ReplaceDecodeTry content = some (utf8ReplaceDecode content) := by
  constructor
  · unfold resolveEncodingFull
    cases hc : chard content with
    | decoded s => exact ⟨s, rfl⟩
    | lookupError enc => exact absurd hc (h enc)
    | importError =>
      cases hf : firstSuccess fallbackDecoders content with
      | some s => exact ⟨s, rfl⟩
      | none => exact ⟨utf8ReplaceDecode content, rfl⟩
    | unicodeDecodeError =>
      cases hf : firstSuccess fallbackDecoders content with
      | some s => exact ⟨s, rfl⟩
      | none => exact ⟨utf8ReplaceDecode content, rfl⟩
  · rfl

/-- Claim C4 witness: the amended statement evaluated on a chardet step that
raises `ImportError` (no `LookupError`). -/
theorem C4_witness :
    (∃ s, resolveEncodingFull (fun _ => ChardetOutcome.importError) [] =
        ResolveOutcome.ok s) ∧
      utf8ReplaceDecodeTry [] = some (utf8ReplaceDecode []) :=
  C4_amended (fun _ => ChardetOutcome.importError) []
    (fun _ h => ChardetOutcome.noConfusion h)

/-- Claim C5, counterexample: a request with no text field and an uploaded
file of zero bytes resolves to the empty string, yet the handler does not
reject it — classification is performed on the empty text (the emptiness of
decoded file content is never re-checked). -/
theorem C5_counterexample :
    (process_email
        ⟨true, true, genImprod, genImprod, remoteEmpty, none, none, ("t1"), ("t2")⟩
        ⟨none, some ([]), none⟩).toOption.map
        (fun b => (b.text, b.classification.category)) =
      some (("", ("Improdutivo"))) := by
  rfl

/-- Claim C5 (amended): when the AI client is initialized, a request with a
falsy text field and no file is rejected with a 400 error and no
classification is performed; the check applies only to the raw form fields,
so a file decoding to empty text is still processed. -/
theorem C5_amended (st : AppState) (req : EmailRequest)
    (h1 : st.aiAvailable = true) (h2 : optTruthy req.email_text = false)
    (h3 : req.email_file = none) :
    process_email st req =
      Except.error (400, "Nenhum texto ou arquivo fornecido") := by
  simp [process_email, h1, h2, h3]

/-- Claim C5 witness: the amended statement evaluated on a concrete request
with neither text nor file. -/
theorem C5_witness :
    process_email
        ⟨true, true, genImprod, genImprod, remoteEmpty, none, none, ("t1"), ("t2")⟩
        ⟨none, none, none⟩ =
      Except.error (400, "Nenhum texto ou arquivo fornecido") :=
  C5_amended _ _ rfl rfl rfl

/-- Claim C6, counterexample: classification runs twice per request (once in
`analyze_and_respond`, once inside `generate_response`); with two pipeline
invocations returning different results, the reported label is Produtivo
while the gating label is Improdutivo and no reply is generated. -/
theorem C6_counterexample :
    (analyze_and_respond true genProd genImprod remoteEmpty none ("t") ("x")
        none).classification.label = "Produtivo" ∧
      (analyze_and_respond true genProd genImprod remoteEmpty none ("t") ("x")
        none).response.classification = some ("Improdutivo") ∧
      (analyze_and_respond true genProd genImprod remoteEmpty none ("t") ("x")
        none).response.response = none :=
  ⟨rfl, rfl, rfl⟩

/-- Claim C6 (amended): the classification is produced twice per request —
once for the reported label and once inside `generate_response` for gating —
and the two labels coincide whenever both pipeline invocations return the
same result (for example a deterministic pipeline). -/
theorem C6_amended (gAvail : Bool) (gen : String → PipeResult)
    (remote : String → RemoteOutcome) (now text : String) (ctx : Option String) :
    (analyze_and_respond gAvail gen gen remote none now text
        ctx).classification.label = classify_productivity gen text ∧
      ((analyze_and_respond gAvail gen gen remote none now text
          ctx).response.classification = none ∨
        (analyze_and_respond gAvail gen gen remote none now text
          ctx).response.classification = some (classify_productivity gen text)) := by
  refine ⟨rfl, ?_⟩
  exact generate_response_classification gAvail gen remote text ctx false

/-- Claim C7: in the local-model strategy, a pipeline dict is mapped exactly
as the spec describes — label lowered and compared with the two recognized
labels, with the `score > 0.5` threshold deciding otherwise (missing keys
defaulting to the empty label and score 0). -/
theorem C7_label_map (label : Option String) (score : Option ℚ) (text : String) :
    classify_productivity (fun _ => PipeResult.entry label score) text =
      specLabelToResult (label.getD ("")) (score.getD 0) := by
  rfl

/-- Claim C8: for every input text, the text handed to the classification
pipeline is exactly the first `min (len text) 512` code points of the
input. -/
theorem C8_truncation (gen : String → PipeResult) (text : String) :
    classify_productivity gen text =
      classifyResultLogic (gen (pyTake text (min (pyLen text) 512))) := by
  unfold classify_productivity
  rw [pyTrunc512_eq_take_min]

/-- Claim C9: latin-1 decoding succeeds on every byte sequence, the fallback
loop never consults the cp1252 or iso-8859-1 decoders, and the resolver
equals its pruned form in which the terminal replace decode and the 400
error branch are removed — those branches are unreachable. -/
theorem C9_latin1_unreachable (detect : Option (List Byte → Option String))
    (content : List Byte) :
    (∃ s, decodeLatin1 content = some s) ∧
      firstSuccess fallbackDecoders content =
        firstSuccess [decodeUtf8, decodeUtf8Sig, decodeLatin1] content ∧
      resolveEncoding detect content = resolveEncodingPruned detect content :=
  ⟨⟨_, decodeLatin1_eq content⟩, firstSuccess_fallback_eq content,
    resolveEncoding_eq_pruned detect content⟩

/-- Claim C10: `analyze_and_respond` never raises — it is total — and when an
internal exception with message `e` occurs, it returns the complete result
whose classification label is `"Erro"` with `is_productive = false` and whose
response part has `success = false` and the error in its message. -/
theorem C10_error_shape (geminiAvailable : Bool) (gen1 gen2 : String → PipeResult)
    (remote : String → RemoteOutcome) (now text : String) (ctx : Option String)
    (e : String) :
    analyze_and_respond geminiAvailable gen1 gen2 remote (some e) now text ctx =
      ⟨text, ⟨"Erro", false⟩,
        ⟨false, "Erro na análise: " ++ e, none, none⟩, now⟩ := by
  rfl
